import Mathlib

/-!
Verification development for the `portfolio-tracker` aggregation core
(`app/services/price_service.py`, `app/services/balance_service.py`,
`app/cache.py`).

Modelling conventions, applied uniformly:

* Python `Decimal` values and JSON numbers are modelled by `ℚ`.  The two
  `Decimal` divisions in the source (`Decimal(raw) / Decimal(10 ** d)` and
  `Decimal(sat) / Decimal(100_000_000)`) are modelled by exact rational
  division; this is exact whenever the quotient fits in the default
  `Decimal` context precision of 28 significant digits, which covers every
  value this development evaluates.
* Rational arithmetic is written with the wrapper operations `qadd`,
  `qsub`, `qmul`, `qdiv`, `qpow` below.  Each is proved equal to the
  corresponding `ℚ` field operation (`qadd_eq` etc.); the wrappers exist
  only because the library's `Rat` field operations are not
  kernel-reducible, which concrete evaluations here require.
* Python `float(x)` applied to a `Decimal` is modelled by `pyFloat`, a
  round-to-nearest-even conversion to a 53-bit binary significand (IEEE-754
  double; overflow and subnormals are outside the magnitudes involved).
* `Decimal(str(cached))` on a cache hit is modelled as the cached rational
  itself: `str` of a float is the shortest decimal numeral reading back as
  that float, and for the integral doubles evaluated in this development
  (such as 1000.0) that numeral denotes the double exactly.
* Python `round(x, 2)` is modelled by `round2` (round half to even at two
  decimal places; the final conversion of the result back to a double is
  not modelled).
* Arithmetic on USD/NGN money values, which the source performs on Python
  floats, is modelled by exact rational arithmetic; the claims under
  verification concern which products and sums are formed, not IEEE
  rounding of the money path.
* Each outbound HTTP interaction is an `Env` field holding its outcome:
  `Except String payload`, the error side carrying the transport-error
  detail (`httpx.HTTPError`, including `raise_for_status` failures).  The
  service layer wraps such failures into `ExternalAPIError` exactly as the
  source does.
* The Redis cache read at the start of each operation is an `Env` field
  from key to optional stored number; the entry under `"crypto:prices"`
  (the only non-numeric cache value) is the separate field `pricesCache`.
  Cache writes and network calls are collected in an explicit effect list.
-/

namespace PortfolioTracker

/-- Kernel-reducible addition on `ℚ`. -/
def qadd (a b : ℚ) : ℚ :=
  Rat.divInt (a.num * (b.den : ℤ) + b.num * (a.den : ℤ)) ((a.den : ℤ) * (b.den : ℤ))

/-- Kernel-reducible negation on `ℚ`. -/
def qneg (a : ℚ) : ℚ :=
  Rat.divInt (-a.num) (a.den : ℤ)

/-- Kernel-reducible subtraction on `ℚ`. -/
def qsub (a b : ℚ) : ℚ :=
  qadd a (qneg b)

/-- Kernel-reducible multiplication on `ℚ`. -/
def qmul (a b : ℚ) : ℚ :=
  Rat.divInt (a.num * b.num) ((a.den : ℤ) * (b.den : ℤ))

/-- Kernel-reducible division on `ℚ` (division by zero yields zero, as in
`ℚ`). -/
def qdiv (a b : ℚ) : ℚ :=
  Rat.divInt (a.num * (b.den : ℤ)) ((a.den : ℤ) * b.num)

/-- Kernel-reducible natural power on `ℚ`. -/
def qpow (b : ℚ) : ℕ → ℚ
  | 0 => 1
  | n + 1 => qmul (qpow b n) b

theorem qadd_eq (a b : ℚ) : qadd a b = a + b := by
  have ha : ((a.den : ℚ)) ≠ 0 := Nat.cast_ne_zero.2 a.den_nz
  have hb : ((b.den : ℚ)) ≠ 0 := Nat.cast_ne_zero.2 b.den_nz
  rw [qadd, Rat.divInt_eq_div]
  push_cast
  conv_rhs => rw [← Rat.num_div_den a, ← Rat.num_div_den b]
  rw [div_add_div _ _ ha hb]
  ring_nf

theorem qneg_eq (a : ℚ) : qneg a = -a := by
  rw [qneg, Rat.divInt_eq_div]
  push_cast
  rw [neg_div, Rat.num_div_den]

theorem qsub_eq (a b : ℚ) : qsub a b = a - b := by
  rw [qsub, qadd_eq, qneg_eq, sub_eq_add_neg]

theorem qmul_eq (a b : ℚ) : qmul a b = a * b := by
  rw [qmul, Rat.divInt_eq_div]
  push_cast
  conv_rhs => rw [← Rat.num_div_den a, ← Rat.num_div_den b]
  rw [div_mul_div_comm]

theorem qdiv_eq (a b : ℚ) : qdiv a b = a / b := by
  rw [qdiv, Rat.divInt_eq_div]
  push_cast
  conv_rhs => rw [← Rat.num_div_den a, ← Rat.num_div_den b]
  rw [div_eq_mul_inv ((a.num : ℚ) / (a.den : ℚ)) ((b.num : ℚ) / (b.den : ℚ)),
    inv_div, div_mul_div_comm]

theorem qpow_eq (b : ℚ) (n : ℕ) : qpow b n = b ^ n := by
  induction n with
  | zero => simp [qpow]
  | succ n ih => rw [qpow, qmul_eq, ih, pow_succ]

/-- Floor of a rational as an integer, by floor division of numerator by
denominator (kernel-reducible, unlike the `FloorRing` field). -/
def ratFloor (q : ℚ) : ℤ :=
  Int.fdiv q.num (q.den : ℤ)

/-- Absolute value of a rational (kernel-reducible). -/
def ratAbs (q : ℚ) : ℚ :=
  if q < 0 then qneg q else q

/-- Integer power of a rational (kernel-reducible `zpow`). -/
def ratPow (b : ℚ) : ℤ → ℚ
  | .ofNat n => qpow b n
  | .negSucc n => qdiv 1 (qpow b (n + 1))

/-- Round a rational to the nearest integer, ties to even (the IEEE-754 and
CPython rounding rule). -/
def roundHalfEven (q : ℚ) : ℤ :=
  let f : ℤ := ratFloor q
  let r : ℚ := qsub q (f : ℚ)
  if r < Rat.divInt 1 2 then f
  else if Rat.divInt 1 2 < r then f + 1
  else if f % 2 = 0 then f else f + 1

/-- Model of Python `round(x, 2)`: round half to even at two decimal
places. -/
def round2 (q : ℚ) : ℚ :=
  qdiv (roundHalfEven (qmul q 100) : ℚ) 100

/-- Normalise a positive rational into the interval [1, 2) by repeated
doubling or halving, returning the binary exponent.  The structural fuel
(4200 when called from `pyFloat`) exceeds the IEEE-754 double exponent
range, so it is never exhausted for representable magnitudes. -/
def normExp : Nat → ℚ → ℤ → ℤ
  | 0, _, e => e
  | fuel + 1, a, e =>
    if a < 1 then normExp fuel (qmul a 2) (e - 1)
    else if 2 ≤ a then normExp fuel (qdiv a 2) (e + 1)
    else e

/-- Model of Python `float(x)` on an exact (decimal) value: round to the
nearest binary-floating-point number with a 53-bit significand, ties to
even. -/
def pyFloat (q : ℚ) : ℚ :=
  if q = 0 then 0
  else
    let a : ℚ := ratAbs q
    let e : ℤ := normExp 4200 a 0
    let ulp : ℤ := e - 52
    let m : ℤ := roundHalfEven (qdiv a (ratPow 2 ulp))
    qmul (qmul (if q < 0 then (-1 : ℚ) else 1) (m : ℚ)) (ratPow 2 ulp)

/-- Value of one hexadecimal digit character. -/
def hexDigitVal (c : Char) : Option Nat :=
  if 48 ≤ c.toNat ∧ c.toNat ≤ 57 then some (c.toNat - 48)
  else if 97 ≤ c.toNat ∧ c.toNat ≤ 102 then some (c.toNat - 87)
  else if 65 ≤ c.toNat ∧ c.toNat ≤ 70 then some (c.toNat - 55)
  else none

/-- Accumulate hexadecimal digits left to right. -/
def hexCore (cs : List Char) : Option Nat :=
  cs.foldl
    (fun acc c =>
      match acc, hexDigitVal c with
      | some n, some d => some (n * 16 + d)
      | _, _ => none)
    (some 0)

/-- Model of Python `int(s, 16)` on the strings this service receives:
an optional `0x`/`0X` marker followed by at least one hex digit; `none`
models the `ValueError` raised otherwise. -/
def pyIntHex (s : String) : Option Nat :=
  let cs := s.data
  let cs := if cs.take 2 = ['0', 'x'] ∨ cs.take 2 = ['0', 'X'] then cs.drop 2 else cs
  if cs.isEmpty then none else hexCore cs

/-- Model of Python `str.upper()` (kernel-reducible character map; the
symbols this service handles are ASCII). -/
def strUpper (s : String) : String :=
  String.mk (s.data.map Char.toUpper)

/-- Model of Python `str.lower()` (kernel-reducible character map; the
symbols this service handles are ASCII). -/
def strLower (s : String) : String :=
  String.mk (s.data.map Char.toLower)

instance {ε α : Type} [DecidableEq ε] [DecidableEq α] : DecidableEq (Except ε α) := by
  intro a b
  cases a with
  | error e =>
    cases b with
    | error f =>
      exact if h : e = f then .isTrue (by rw [h]) else .isFalse (by intro hc; cases hc; exact h rfl)
    | ok y => exact .isFalse (by intro hc; cases hc)
  | ok x =>
    cases b with
    | error f => exact .isFalse (by intro hc; cases hc)
    | ok y =>
      exact if h : x = y then .isTrue (by rw [h]) else .isFalse (by intro hc; cases hc; exact h rfl)

/-! ## Data model (`app/models/wallet.py`, `app/schemas`, `app/exceptions.py`) -/

/-- The `NetworkType` string enum of `app/models/wallet.py`. -/
inductive NetworkType where
  | ethereum
  | bitcoin
  | bsc
  | polygon
deriving DecidableEq, Repr

/-- The `.value` of the Python string enum. -/
def NetworkType.value : NetworkType → String
  | .ethereum => "ethereum"
  | .bitcoin => "bitcoin"
  | .bsc => "bsc"
  | .polygon => "polygon"

/-- The fields of `WalletModel` that the aggregation core reads (storage
and key-custody fields are out of scope). -/
structure WalletModel where
  id : String
  network : NetworkType
  address : String
deriving DecidableEq, Repr

/-- Exceptions that can cross the layers under verification.  `blockAi`
carries the message and status code of `BlockAiException`; `externalAPI`
keeps the service name and detail of `ExternalAPIError` (whose
`BlockAiException` message is derived from them and whose status is 502);
`attributeError` and `valueError` model the built-in Python exceptions
that the dynamic attribute lookup and `int(_, 16)` can raise. -/
inductive PyError where
  | blockAi (message : String) (statusCode : Nat)
  | externalAPI (service : String) (detail : String)
  | attributeError (name : String)
  | valueError (detail : String)
  | redisError (detail : String)
deriving DecidableEq, Repr

/-- Response schema `AssetPriceResponse` (`app/schemas/price.py`).  The
service always supplies `change_24h`, so the optional field is modelled
as its value. -/
structure AssetPriceResponse where
  symbol : String
  price_usd : ℚ
  price_ngn : ℚ
  change_24h : ℚ
deriving DecidableEq, Repr

/-- Response schema `PricesListResponse` (`app/schemas/price.py`): the
six-entry price table. -/
structure PricesListResponse where
  btc : AssetPriceResponse
  eth : AssetPriceResponse
  bnb : AssetPriceResponse
  matic : AssetPriceResponse
  usdt : AssetPriceResponse
  usdc : AssetPriceResponse
deriving DecidableEq, Repr

/-- Response schema `WalletBalanceResponse` (`app/schemas/wallet.py`).
The source stores `str(balance)` of the `Decimal`; the model keeps the
exact value that string denotes. -/
structure WalletBalanceResponse where
  id : String
  network : NetworkType
  address : String
  asset : String
  balance : ℚ
  balance_usd : ℚ
  balance_ngn : ℚ
deriving DecidableEq, Repr

/-- Response schema `PortfolioValueResponse` (`app/schemas/wallet.py`). -/
structure PortfolioValueResponse where
  total_value_usd : ℚ
  total_value_ngn : ℚ
  wallets : List WalletBalanceResponse
deriving DecidableEq, Repr

/-! ## Upstream payloads and the effect log -/

/-- One row of the Binance `/ticker/24hr` bulk response, restricted to the
fields the source reads. -/
structure BinanceTicker where
  symbol : String
  lastPrice : ℚ
  priceChangePercent : ℚ
deriving DecidableEq, Repr

/-- The `ticker` object of a Quidax market response, restricted to the
fields the source reads. -/
structure QuidaxTicker where
  buy : ℚ
  sell : ℚ
  last : ℚ
deriving DecidableEq, Repr

/-- Body of a JSON-RPC response: the optional `error` object (its message)
and the optional `result` hex string. -/
structure RpcResponse where
  errorMsg : Option String
  result : Option String
deriving DecidableEq, Repr

/-- The Blockstream address-lookup fields the source reads
(`chain_stats` / `mempool_stats` funded and spent sums, with `.get(_, 0)`
defaults already applied). -/
structure BtcAddressStats where
  chainFunded : ℤ
  chainSpent : ℤ
  mempoolFunded : ℤ
  mempoolSpent : ℤ
deriving DecidableEq, Repr

/-- A JSON value written to the cache: either a number (NGN rate, balance
floats) or the serialized price table. -/
inductive CacheVal where
  | num (q : ℚ)
  | table (t : PricesListResponse)
deriving DecidableEq, Repr

/-- Network endpoints the services call out to. -/
inductive NetEndpoint where
  | binance
  | quidax (market : String)
  | evmRpc (network : String)
  | tokenRpc (network : String) (token : String)
  | btcExplorer (address : String)
deriving DecidableEq, Repr

/-- Observable side effects of one service call, in program order. -/
inductive Eff where
  | netCall (ep : NetEndpoint)
  | cacheSet (key : String) (value : CacheVal) (ttl : Nat)
deriving DecidableEq, Repr

/-- Outcomes of the world outside the service code during one snapshot:
the cache contents at the time of each read (numeric entries under their
keys, and the price-table entry under `"crypto:prices"`), the outcome of
each outbound HTTP interaction (`Except.error` carries the `httpx`
transport-error detail), and the attribute surface of the installed
pydantic library.  `pydanticAttr name` is the value of
`hasattr(prices, name)` for a name that is not one of the six model
fields: whether such a name exists on a `BaseModel` instance (its bound
methods such as `copy`, `dict`, `validate`, the `model_*` attributes,
every dunder, …) is a property of the installed library version, so the
model carries it as an environment fact rather than committing to an
enumeration; for the six fields themselves `hasattr` always holds and the
field is read directly.  Services are deterministic functions of this
environment; issued calls and cache writes are returned in an `Eff`
list. -/
structure Env where
  cache : String → Option ℚ
  pricesCache : Option PricesListResponse
  binance : Except String (List BinanceTicker)
  quidax : String → Except String QuidaxTicker
  evm : String → String → Except String RpcResponse
  token : String → String → String → Except String RpcResponse
  btc : String → Except String BtcAddressStats
  pydanticAttr : String → Bool

/-! ## Static configuration (`app/services/balance_service.py` header) -/

/-- `PUBLIC_RPC_URLS`, in insertion order. -/
def PUBLIC_RPC_URLS : List (String × String) :=
  [("ethereum", "https://eth.llamarpc.com"),
   ("bsc", "https://bsc-dataseed.binance.org"),
   ("polygon", "https://polygon-rpc.com"),
   ("bitcoin", "https://blockstream.info/api")]

/-- `NATIVE_ASSETS`, in insertion order. -/
def NATIVE_ASSETS : List (String × String) :=
  [("ethereum", "ETH"),
   ("bsc", "BNB"),
   ("polygon", "MATIC"),
   ("bitcoin", "BTC")]

/-- Python `dict.get` on a string-keyed mapping modelled as an association
list (keys are unique in all the dictionaries below). -/
def dictGet (m : List (String × α)) (k : String) : Option α :=
  (m.find? (fun p => p.1 == k)).map Prod.snd

/-- Token entry of `TOKEN_CONFIG`: contract address and decimal places. -/
structure TokenInfo where
  address : String
  decimals : Nat
deriving DecidableEq, Repr

/-- `TOKEN_CONFIG`: per-network token symbol to contract configuration. -/
def TOKEN_CONFIG : List (String × List (String × TokenInfo)) :=
  [("ethereum",
     [("usdt", ⟨"0xdAC17F958D2ee523a2206206994597C13D831ec7", 6⟩),
      ("usdc", ⟨"0xA0b86991c6218b36c1d19D4a2e9Eb0cE3606eB48", 6⟩)]),
   ("bsc",
     [("usdt", ⟨"0x55d398326f99059fF775485246999027B3197955", 18⟩),
      ("usdc", ⟨"0x8AC76a51cc950d9822D68b83fE1Ad97B32Cd580d", 18⟩)]),
   ("polygon",
     [("usdt", ⟨"0xc2132D05D31c914a87C6611C10748AEb04B58e8F", 6⟩),
      ("usdc", ⟨"0x3c499c542cEF5E3811e1192ce70d8cC03d5c3359", 6⟩)])]

/-- The `balanceOf(address)` four-byte selector. -/
def BALANCE_OF_SELECTOR : String := "0x70a08231"

/-! ## Price service (`app/services/price_service.py`) -/

def CACHE_KEY_PRICES : String := "crypto:prices"

def CACHE_KEY_NGN_RATE : String := "crypto:ngn_rate"

def REQUIRED_SYMBOLS : List String :=
  ["BTCUSDT", "ETHUSDT", "BNBUSDT", "MATICUSDT", "USDCUSDT"]

/-- `get_all_binance_tickers`: fetch the bulk 24h ticker list and keep the
required symbols; an `httpx.HTTPError` becomes `ExternalAPIError`
(`raise ExternalAPIError("Binance", str(e))`). -/
def get_all_binance_tickers (env : Env) : Except PyError (List BinanceTicker) :=
  match env.binance with
  | .error e => .error (.externalAPI "Binance" e)
  | .ok rows => .ok (rows.filter (fun t => REQUIRED_SYMBOLS.contains t.symbol))

/-- Lookup in the dictionary `get_all_binance_tickers` builds: the loop
assigns `result[symbol] = ...` per row, so the last row with a given
symbol wins. -/
def tickerFor (rows : List BinanceTicker) (sym : String) : Option BinanceTicker :=
  (rows.filter (fun t => t.symbol == sym)).getLast?

/-- `get_quidax_ticker`: every failure mode of the source (transport
error, error-status payload, and `KeyError`/`ValueError` while parsing)
is re-raised as `ExternalAPIError("Quidax", _)`; the environment outcome
carries the collapsed detail. -/
def get_quidax_ticker (env : Env) (market : String) : Except PyError QuidaxTicker :=
  match env.quidax market with
  | .error e => .error (.externalAPI "Quidax" e)
  | .ok tk => .ok tk

/-- Cache-miss path of `get_ngn_rate`: query Quidax for `usdtngn`; cache
and return `ticker["last"]` on success, return the fallback constant
1500.0 on `ExternalAPIError`. -/
def ngnRateMiss (env : Env) : ℚ × List Eff :=
  match get_quidax_ticker env "usdtngn" with
  | .ok tk =>
    (tk.last,
     [.netCall (.quidax "usdtngn"), .cacheSet CACHE_KEY_NGN_RATE (.num tk.last) 300])
  | .error _ => (1500, [.netCall (.quidax "usdtngn")])

/-- `get_ngn_rate`: return a truthy cached rate (`if cached_rate:` — a
cached 0.0 is falsy and treated as a miss), else take the miss path. -/
def get_ngn_rate (env : Env) : ℚ × List Eff :=
  match env.cache CACHE_KEY_NGN_RATE with
  | some r => if r ≠ 0 then (r, []) else ngnRateMiss env
  | none => ngnRateMiss env

/-- The `make_response` closure of `get_all_prices`: NGN price is the USD
price times the NGN rate (no rounding in the source). -/
def make_response (ngn_rate : ℚ) (symbol : String) (price change_24h : ℚ) :
    AssetPriceResponse :=
  { symbol := symbol
    price_usd := price
    price_ngn := qmul price ngn_rate
    change_24h := change_24h }

/-- One entry of the `prices` dictionary of `get_all_prices`:
`tickers.get(SYM, {"price": 0.0, "change_24h": 0.0})`. -/
def priceRow (tickers : List BinanceTicker) (sym : String) : ℚ × ℚ :=
  match tickerFor tickers sym with
  | some t => (t.lastPrice, t.priceChangePercent)
  | none => (0, 0)

/-- The six-entry table `get_all_prices` builds from the filtered tickers
and the NGN rate; `usdt` is pinned at `{"price": 1.0, "change_24h": 0.0}`. -/
def buildTable (tickers : List BinanceTicker) (ngn_rate : ℚ) : PricesListResponse :=
  { btc := make_response ngn_rate "BTC" (priceRow tickers "BTCUSDT").1 (priceRow tickers "BTCUSDT").2
    eth := make_response ngn_rate "ETH" (priceRow tickers "ETHUSDT").1 (priceRow tickers "ETHUSDT").2
    bnb := make_response ngn_rate "BNB" (priceRow tickers "BNBUSDT").1 (priceRow tickers "BNBUSDT").2
    matic := make_response ngn_rate "MATIC" (priceRow tickers "MATICUSDT").1 (priceRow tickers "MATICUSDT").2
    usdt := make_response ngn_rate "USDT" 1 0
    usdc := make_response ngn_rate "USDC" (priceRow tickers "USDCUSDT").1 (priceRow tickers "USDCUSDT").2 }

/-- The `tickers` variable of `get_all_prices`: the fetched rows, with an
`ExternalAPIError` absorbed into an empty row set (`tickers = {}`). -/
def snapshotTickers (env : Env) : List BinanceTicker :=
  match get_all_binance_tickers env with
  | .ok rows => rows
  | .error _ => []

/-- `get_all_prices`: serve the cached table when present (only
`buildTable` outputs are ever stored under this key, and the serialized
dictionary is non-empty hence truthy); on a miss, fetch tickers, fetch
the NGN rate, build the table, cache it for 30s and return it. -/
def get_all_prices (env : Env) : PricesListResponse × List Eff :=
  match env.pricesCache with
  | some t => (t, [])
  | none =>
    let table := buildTable (snapshotTickers env) (get_ngn_rate env).1
    (table,
     [Eff.netCall .binance] ++ (get_ngn_rate env).2
       ++ [.cacheSet CACHE_KEY_PRICES (.table table) 30])

/-- The model fields of `PricesListResponse`, as `getattr` reaches them
for a lower-cased symbol. -/
def priceTableField (t : PricesListResponse) (name : String) : Option AssetPriceResponse :=
  if name = "btc" then some t.btc
  else if name = "eth" then some t.eth
  else if name = "bnb" then some t.bnb
  else if name = "matic" then some t.matic
  else if name = "usdt" then some t.usdt
  else if name = "usdc" then some t.usdc
  else none

/-- `get_price_for_symbol`: build/serve the table via `get_all_prices`,
lower-case the symbol, and read `getattr(prices, symbol_lower).price_usd`
when `hasattr(prices, symbol_lower)`.  For one of the six model fields
the attribute is the `AssetPriceResponse` and its usd price is returned.
For any other name, `hasattr` holds exactly when the name exists on the
pydantic `BaseModel` instance (`Env.pydanticAttr`); then `getattr` yields
a bound method or metadata attribute, never an `AssetPriceResponse`, so
reading `.price_usd` on it raises `AttributeError`.  A name with no
attribute fails `hasattr` and falls through to `return 0.0`. -/
def get_price_for_symbol (env : Env) (symbol : String) :
    Except PyError ℚ × List Eff :=
  let prices := (get_all_prices env).1
  let effs := (get_all_prices env).2
  let symbol_lower := strLower symbol
  match priceTableField prices symbol_lower with
  | some priceObj => (.ok priceObj.price_usd, effs)
  | none =>
    if env.pydanticAttr symbol_lower then
      (.error (.attributeError "price_usd"), effs)
    else
      (.ok 0, effs)

/-! ## Balance service (`app/services/balance_service.py`) -/

/-- `_get_rpc_url`: raise `BlockAiException(..., 400)` when the network
has no configured endpoint. -/
def _get_rpc_url (network : String) : Except PyError String :=
  match dictGet PUBLIC_RPC_URLS network with
  | some url => .ok url
  | none => .error (.blockAi (s!"No RPC URL configured for network: {network}") 400)

/-- `_get_network_str` (the if-chain over the enum; the `"unknown"`
fallback line is unreachable because the match is exhaustive). -/
def _get_network_str (network : NetworkType) : String :=
  match network with
  | .ethereum => "ethereum"
  | .bsc => "bsc"
  | .polygon => "polygon"
  | .bitcoin => "bitcoin"

/-- `_is_native_asset`: membership of the upper-cased symbol in
`NATIVE_ASSETS.values()`. -/
def _is_native_asset (asset : String) : Bool :=
  (NATIVE_ASSETS.map Prod.snd).contains (strUpper asset)

/-- `_get_native_asset_network`: first network whose native asset matches
the upper-cased symbol, in `NATIVE_ASSETS` insertion order. -/
def _get_native_asset_network (asset : String) : Option String :=
  (NATIVE_ASSETS.find? (fun p => p.2 == strUpper asset)).map Prod.fst

/-- Python `str.zfill`: left-pad with `'0'` to the given width. -/
def strZfill (s : String) (width : Nat) : String :=
  String.mk (List.replicate (width - s.length) '0') ++ s

/-- The `eth_call` payload `_get_token_balance` posts: selector plus the
32-byte left-padded address argument. -/
def tokenCallPayload (address : String) : String :=
  BALANCE_OF_SELECTOR ++ strZfill (address.drop 2) 64

/-- Token lookup `TOKEN_CONFIG.get(network, {}).get(token.lower())`. -/
def tokenInfoFor (network tokenLower : String) : Option TokenInfo :=
  dictGet ((dictGet TOKEN_CONFIG network).getD []) tokenLower

/-- Network-facing part of `_get_token_balance` (after the cache miss):
post `eth_call`, surface a transport failure or a JSON-RPC error object as
`ExternalAPIError("RPC", _)`, default a missing/`"0x"` result to `"0x0"`,
decode the hex integer, divide by `Decimal(10 ** decimals)`, cache the
`float` of the balance for 30s and return the exact `Decimal`. -/
def tokenFetch (env : Env) (address network token_symbol cache_key : String)
    (decimals : Nat) : Except PyError ℚ × List Eff :=
  let call : Eff := .netCall (.tokenRpc network token_symbol)
  match env.token network token_symbol address with
  | .error e =>
    (.error (.externalAPI "RPC" (s!"HTTP error fetching {token_symbol} on {network}: {e}")),
     [call])
  | .ok data =>
    match data.errorMsg with
    | some msg => (.error (.externalAPI "RPC" msg), [call])
    | none =>
      let result_hex := data.result.getD "0x0"
      let result_hex := if result_hex = "0x" then "0x0" else result_hex
      match pyIntHex result_hex with
      | none => (.error (.valueError result_hex), [call])
      | some balance_raw =>
        let balance : ℚ := qdiv (balance_raw : ℚ) (qpow 10 decimals)
        (.ok balance, [call, .cacheSet cache_key (.num (pyFloat balance)) 30])

/-- `_get_token_balance`: configuration and endpoint checks, then the
cache (`if cached is not None` — a cached 0.0 is served), then the RPC
fetch. -/
def _get_token_balance (env : Env) (address network token_symbol : String) :
    Except PyError ℚ × List Eff :=
  match tokenInfoFor network (strLower token_symbol) with
  | none =>
    (.error (.blockAi (s!"Token {token_symbol} is not configured for {network}") 400), [])
  | some token_info =>
    match _get_rpc_url network with
    | .error e => (.error e, [])
    | .ok _ =>
      let cache_key := s!"balance:{network}:{token_symbol}:{address}"
      match env.cache cache_key with
      | some cached => (.ok cached, [])
      | none => tokenFetch env address network token_symbol cache_key token_info.decimals

/-- Network-facing part of `_get_evm_balance` (after the cache miss):
post `eth_getBalance`, surface transport failures, JSON-RPC error objects
and falsy results as `ExternalAPIError`, decode the hex integer, divide
by `Decimal(10 ** 18)`, cache the `float` for 30s and return the exact
`Decimal`. -/
def evmFetch (env : Env) (address network cache_key : String) :
    Except PyError ℚ × List Eff :=
  let call : Eff := .netCall (.evmRpc network)
  match env.evm network address with
  | .error e =>
    (.error (.externalAPI "RPC" (s!"HTTP error fetching {network} balance: {e}")), [call])
  | .ok data =>
    match data.errorMsg with
    | some msg => (.error (.externalAPI "RPC" msg), [call])
    | none =>
      match data.result with
      | none => (.error (.externalAPI "RPC" "No result in RPC response"), [call])
      | some result =>
        if result = "" then
          (.error (.externalAPI "RPC" "No result in RPC response"), [call])
        else
          match pyIntHex result with
          | none => (.error (.valueError result), [call])
          | some balance_wei =>
            let balance : ℚ := qdiv (balance_wei : ℚ) (qpow 10 18)
            (.ok balance, [call, .cacheSet cache_key (.num (pyFloat balance)) 30])

/-- `_get_evm_balance`: endpoint check, then the cache (`if cached:` — a
cached 0.0 is falsy and refetched), then the RPC fetch. -/
def _get_evm_balance (env : Env) (address network : String) :
    Except PyError ℚ × List Eff :=
  match _get_rpc_url network with
  | .error e => (.error e, [])
  | .ok _ =>
    let cache_key := s!"balance:{network}:{address}"
    match env.cache cache_key with
    | some cached =>
      if cached ≠ 0 then (.ok cached, []) else evmFetch env address network cache_key
    | none => evmFetch env address network cache_key

/-- Network-facing part of `_get_btc_balance` (after the cache miss):
query the Blockstream address endpoint, sum funded minus spent satoshi
over chain and mempool stats, divide by `Decimal(100_000_000)`, cache the
`float` for 30s and return the exact `Decimal`. -/
def btcFetch (env : Env) (address cache_key : String) :
    Except PyError ℚ × List Eff :=
  let call : Eff := .netCall (.btcExplorer address)
  match env.btc address with
  | .error e =>
    (.error (.externalAPI "Blockstream" (s!"HTTP error fetching BTC balance: {e}")), [call])
  | .ok data =>
    let funded := data.chainFunded + data.mempoolFunded
    let spent := data.chainSpent + data.mempoolSpent
    let balance_satoshi := funded - spent
    let balance : ℚ := qdiv (balance_satoshi : ℚ) 100000000
    (.ok balance, [call, .cacheSet cache_key (.num (pyFloat balance)) 30])

/-- `_get_btc_balance`: the cache (`if cached:` — a cached 0.0 is falsy
and refetched), then the explorer fetch. -/
def _get_btc_balance (env : Env) (address : String) :
    Except PyError ℚ × List Eff :=
  let cache_key := s!"balance:bitcoin:{address}"
  match env.cache cache_key with
  | some cached =>
    if cached ≠ 0 then (.ok cached, []) else btcFetch env address cache_key
  | none => btcFetch env address cache_key

/-- Valuation tail of `get_wallet_balance` (lines 326-340): look up the
unit USD price and the NGN rate, compute
`balance_usd = float(balance) * price_usd` and
`balance_ngn = balance_usd * ngn_rate`, and build the response with both
money fields rounded to 2 decimal places and the balance kept as the
exact decimal string. -/
def quoteValuation (env : Env) (wallet : WalletModel) (symbol : String) (balance : ℚ) :
    Except PyError WalletBalanceResponse × List Eff :=
  let priceEffs := (get_price_for_symbol env symbol).2
  match (get_price_for_symbol env symbol).1 with
  | .error e => (.error e, priceEffs)
  | .ok price_usd =>
    let ngn_rate := (get_ngn_rate env).1
    let ngnEffs := (get_ngn_rate env).2
    let balance_usd := qmul (pyFloat balance) price_usd
    let balance_ngn := qmul balance_usd ngn_rate
    (.ok { id := wallet.id
           network := wallet.network
           address := wallet.address
           asset := symbol
           balance := balance
           balance_usd := round2 balance_usd
           balance_ngn := round2 balance_ngn },
     priceEffs ++ ngnEffs)

/-- Native-asset dispatch of `get_wallet_balance` (lines 295-309): pick
the reader and reported symbol from the wallet's network, then value the
balance. -/
def nativeBalanceQuote (env : Env) (wallet : WalletModel) :
    Except PyError WalletBalanceResponse × List Eff :=
  let balRes :=
    match wallet.network with
    | .bitcoin => _get_btc_balance env wallet.address
    | .ethereum => _get_evm_balance env wallet.address "ethereum"
    | .bsc => _get_evm_balance env wallet.address "bsc"
    | .polygon => _get_evm_balance env wallet.address "polygon"
  let symbol :=
    match wallet.network with
    | .bitcoin => "BTC"
    | .ethereum => "ETH"
    | .bsc => "BNB"
    | .polygon => "MATIC"
  match balRes.1 with
  | .error e => (.error e, balRes.2)
  | .ok balance =>
    ((quoteValuation env wallet symbol balance).1,
     balRes.2 ++ (quoteValuation env wallet symbol balance).2)

/-- Token dispatch of `get_wallet_balance` (lines 323-324): read the
token balance and value it. -/
def tokenBalanceQuote (env : Env) (wallet : WalletModel)
    (network_str target_asset : String) :
    Except PyError WalletBalanceResponse × List Eff :=
  match (_get_token_balance env wallet.address network_str target_asset).1 with
  | .error e => (.error e, (_get_token_balance env wallet.address network_str target_asset).2)
  | .ok balance =>
    ((quoteValuation env wallet target_asset balance).1,
     (_get_token_balance env wallet.address network_str target_asset).2
       ++ (quoteValuation env wallet target_asset balance).2)

/-- `get_wallet_balance`: resolve the target asset (explicit upper-cased
asset when the argument is truthy, else the network's native asset),
validate native-asset/network agreement and token support, dispatch to
the matching balance reader, and value the result. -/
def get_wallet_balance (env : Env) (wallet : WalletModel) (asset : Option String) :
    Except PyError WalletBalanceResponse × List Eff :=
  let network := wallet.network
  let network_str := _get_network_str network
  let explicit_asset : Option String :=
    match asset with
    | some a => if a.isEmpty then none else some (strUpper a)
    | none => none
  let target_asset : String :=
    (explicit_asset).getD ((dictGet NATIVE_ASSETS network_str).getD "UNKNOWN")
  if _is_native_asset target_asset then
    match _get_native_asset_network target_asset with
    | some expected_network =>
      if expected_network ≠ network_str then
        (.error (.blockAi
          (s!"Asset {target_asset} is the native currency of {expected_network}, not {network_str}")
          400), [])
      else
        nativeBalanceQuote env wallet
    | none => nativeBalanceQuote env wallet
  else
    if network = .bitcoin then
      (.error (.blockAi (s!"Asset {target_asset} is not supported on Bitcoin network") 400), [])
    else if (tokenInfoFor network_str (strLower target_asset)).isNone then
      (.error (.blockAi (s!"Asset {target_asset} is not supported on {network.value}") 400), [])
    else
      tokenBalanceQuote env wallet network_str target_asset

/-! ## Portfolio aggregation (`get_portfolio_value`, lines 342-391) -/

/-- The task list `fetch_wallet_balances` builds for one wallet: the
native asset always, and USDT and USDC when the wallet's network is not
bitcoin. -/
def walletTasks (wallet : WalletModel) : List (Option String) :=
  [none] ++ (if wallet.network ≠ .bitcoin then [some "USDT", some "USDC"] else [])

/-- The post-filter of `fetch_wallet_balances` (line 363):
`float(resp.balance) > 0 or resp.asset in ["ETH", "BTC", "BNB", "MATIC"]`.
`float` re-parses the decimal string of the balance; every balance this
service produces is an integer multiple of 10⁻¹⁸, for which the parsed
double is positive exactly when the value is, so the comparison is
modelled on the exact value. -/
def keepQuote (resp : WalletBalanceResponse) : Bool :=
  decide (0 < resp.balance)
    || (["ETH", "BTC", "BNB", "MATIC"] : List String).contains resp.asset

/-- The per-wallet closure of `get_portfolio_value`: gather all task
outcomes (`return_exceptions=True`, so failed tasks appear as exception
values and cancel nothing), drop the failures (logged) and keep the
successes that pass the post-filter, in task order. -/
def fetch_wallet_balances (env : Env) (wallet : WalletModel) :
    List WalletBalanceResponse :=
  ((walletTasks wallet).map fun a => (get_wallet_balance env wallet a).1).filterMap
    fun resp =>
      match resp with
      | .error _ => none
      | .ok r => if keepQuote r then some r else none

/-- Left-fold sum, matching the `total += ...` accumulation of the
source. -/
def qsum (l : List ℚ) : ℚ :=
  l.foldl qadd 0

theorem qsum_eq (l : List ℚ) : qsum l = l.sum := by
  suffices h : ∀ a : ℚ, l.foldl qadd a = a + l.sum by
    simpa [qsum] using h 0
  induction l with
  | nil => intro a; simp
  | cons x xs ih =>
    intro a
    simp only [List.foldl_cons, List.sum_cons, ih, qadd_eq]
    ring

/-- `get_portfolio_value`: run every wallet's fetch (outer
`asyncio.gather` with `return_exceptions=True`; the inner closure is
total, so no outer exception arises), flatten the kept quotes, and sum
their rounded USD and NGN values into rounded totals. -/
def get_portfolio_value (env : Env) (wallets : List WalletModel) :
    PortfolioValueResponse :=
  let all_results := wallets.map (fetch_wallet_balances env)
  let wallet_balances := all_results.flatten
  { total_value_usd := round2 (qsum (wallet_balances.map (·.balance_usd)))
    total_value_ngn := round2 (qsum (wallet_balances.map (·.balance_ngn)))
    wallets := wallet_balances }

/-! ## Cache (`app/cache.py`) -/

/-- Interface of the `redis.asyncio` client exactly as `app/cache.py`
uses it.  Each command either returns or raises — in particular
`redis.from_url` connects lazily, so an unreachable backing store
surfaces as a `ConnectionError` raised by the command itself, which this
model carries on the `Except.error` side.  Stored strings are modelled by
the values they encode (the `json.dumps`/`json.loads` round-trip and the
falsiness of an absent reply are folded into `Option`). -/
structure RedisClient (α : Type) where
  rGet : String → Except PyError (Option α)
  rSet : String → α → Nat → Except PyError Unit
  rDel : String → Except PyError Unit

/-- Default `Settings().redis_ttl_seconds`. -/
def redis_ttl_seconds : Nat := 60

/-- `Cache.get`: `None` when no client is connected, else the client's
reply (deserialized; a falsy reply is `None`).  A raising client
propagates. -/
def cache_get {α : Type} (client : Option (RedisClient α)) (key : String) :
    Except PyError (Option α) :=
  match client with
  | none => .ok none
  | some c => c.rGet key

/-- The `ttl = ttl or settings.redis_ttl_seconds` default (`or` is by
truthiness: an explicit 0 also falls back). -/
def resolveTtl (ttl : Option Nat) : Nat :=
  match ttl with
  | some t => if t ≠ 0 then t else redis_ttl_seconds
  | none => redis_ttl_seconds

/-- `Cache.set`: a no-op when no client is connected, else the client's
`set` with the resolved TTL.  A raising client propagates. -/
def cache_set {α : Type} (client : Option (RedisClient α)) (key : String) (value : α)
    (ttl : Option Nat) : Except PyError Unit :=
  match client with
  | none => .ok ()
  | some c => c.rSet key value (resolveTtl ttl)

/-- `Cache.delete`: a no-op when no client is connected, else the
client's `delete`.  A raising client propagates. -/
def cache_delete {α : Type} (client : Option (RedisClient α)) (key : String) :
    Except PyError Unit :=
  match client with
  | none => .ok ()
  | some c => c.rDel key

/-- A connected client whose backing store is unreachable: every command
raises the transport error, as the `redis` client does once the server
stops answering. -/
def downRedis (detail : String) : RedisClient ℚ :=
  { rGet := fun _ => .error (.redisError detail)
    rSet := fun _ _ _ => .error (.redisError detail)
    rDel := fun _ => .error (.redisError detail) }

/-! ## Concrete scenario environments -/

set_option maxRecDepth 1000000

/-- A sample of non-field attribute names that exist on every pydantic
`BaseModel` instance ("copy", "dict", "json", "schema", "validate" are
methods in every release, deprecated but present in v2, which this
project uses).  The list only instantiates the `pydanticAttr` oracle of
the scenario environments at names whose membership is certain; no
completeness is claimed or needed — the theorems over all environments
take the oracle as given. -/
def knownBaseModelAttrs : List String :=
  ["copy", "dict", "json", "schema", "construct", "validate", "parse_obj",
   "model_dump", "model_copy", "model_dump_json", "model_validate",
   "model_fields", "model_config", "model_extra", "model_rebuild", "__init__"]

/-- Cold caches, every upstream source failing at transport level. -/
def envDown : Env :=
  { cache := fun _ => none
    pricesCache := none
    binance := .error "connect timeout"
    quidax := fun _ => .error "connect timeout"
    evm := fun _ _ => .error "connect timeout"
    token := fun _ _ _ => .error "connect timeout"
    btc := fun _ => .error "connect timeout"
    pydanticAttr := fun s => knownBaseModelAttrs.contains s }

/-- Like `envDown`, but Quidax answers `usdtngn` with last price 1650. -/
def envQuidaxUp : Env :=
  { envDown with quidax := fun _ => .ok ⟨1600, 1700, 1650⟩ }

/-- Like `envDown`, but the NGN rate 1234 is cached. -/
def envRateCached : Env :=
  { envDown with cache := fun k => if k = CACHE_KEY_NGN_RATE then some 1234 else none }

/-- Like `envDown`, but every numeric cache key holds 0.0. -/
def envZeroCache : Env :=
  { envDown with cache := fun _ => some 0 }

/-- Like `envDown`, but every token `eth_call` returns the hex integer
0x3B9ACA00 (= 1,000,000,000). -/
def envTokenHex : Env :=
  { envDown with token := fun _ _ _ => .ok ⟨none, some "0x3B9ACA00"⟩ }

/-- Like `envDown`, but the USDT entry under the ethereum token-balance
cache key for address `0xabc` holds 1000.0 (what a fresh fetch under
`envTokenHex` stores). -/
def envTokenCached : Env :=
  { envDown with
    cache := fun k => if k = "balance:ethereum:usdt:0xabc" then some 1000 else none }

/-- Like `envDown`, but the Blockstream explorer answers with empty
address stats. -/
def envBtcUp : Env :=
  { envDown with btc := fun _ => .ok ⟨0, 0, 0, 0⟩ }

/-- A bitcoin wallet. -/
def wBtc : WalletModel := { id := "w1", network := .bitcoin, address := "bc1qtest" }

/-- An ethereum wallet. -/
def wEth : WalletModel := { id := "w2", network := .ethereum, address := "0xabc" }

/-! ## Helper lemmas -/

/-- Every branch of the EVM fetch records the RPC call. -/
theorem evmFetch_netCall (env : Env) (address network cache_key : String) :
    Eff.netCall (.evmRpc network) ∈ (evmFetch env address network cache_key).2 := by
  unfold evmFetch
  rcases env.evm network address with e | data
  · simp
  · rcases h : data.errorMsg with _ | msg
    · rcases hr : data.result with _ | result
      · simp [h, hr]
      · by_cases hres : result = ""
        · simp [h, hr, hres]
        · rcases hh : pyIntHex result with _ | n
          · simp [h, hr, hres, hh]
          · simp [h, hr, hres, hh]
    · simp [h]

/-- Every branch of the Blockstream fetch records the explorer call. -/
theorem btcFetch_netCall (env : Env) (address cache_key : String) :
    Eff.netCall (.btcExplorer address) ∈ (btcFetch env address cache_key).2 := by
  unfold btcFetch
  rcases env.btc address with e | data <;> simp

/-! ## Claims -/

/-- C8: `get_ngn_rate` reads the cache under key `crypto:ngn_rate` and
returns a (truthy) cached rate with no effect; on a cache miss it queries
the Quidax `usdtngn` market; on any failure from that source it returns
the fixed fallback 1500.0 with no cache write and no propagated error;
and a successful fetch — and only a successful fetch — is cached under
the same key with TTL 300 seconds. -/
theorem get_ngn_rate_contract (env : Env) :
    (∀ r : ℚ, env.cache CACHE_KEY_NGN_RATE = some r → r ≠ 0 →
        get_ngn_rate env = (r, []))
    ∧ (env.cache CACHE_KEY_NGN_RATE = none →
        (∀ d, env.quidax "usdtngn" = .error d →
            get_ngn_rate env = (1500, [.netCall (.quidax "usdtngn")]))
        ∧ (∀ tk : QuidaxTicker, env.quidax "usdtngn" = .ok tk →
            get_ngn_rate env =
              (tk.last,
               [.netCall (.quidax "usdtngn"),
                .cacheSet CACHE_KEY_NGN_RATE (.num tk.last) 300]))) := by
  refine ⟨fun r hr hnz => ?_, fun hmiss => ⟨fun d hd => ?_, fun tk htk => ?_⟩⟩
  · simp [get_ngn_rate, hr, hnz]
  · simp [get_ngn_rate, hmiss, ngnRateMiss, get_quidax_ticker, hd]
  · simp [get_ngn_rate, hmiss, ngnRateMiss, get_quidax_ticker, htk]

/-- C8 witness: concrete instances of the three branches — cache hit at
1234, miss with Quidax down (fallback 1500, nothing cached), miss with
Quidax answering 1650 (cached under `crypto:ngn_rate` for 300s). -/
theorem get_ngn_rate_contract_witness :
    get_ngn_rate envRateCached = (1234, [])
    ∧ get_ngn_rate envDown = (1500, [.netCall (.quidax "usdtngn")])
    ∧ get_ngn_rate envQuidaxUp =
        (1650,
         [.netCall (.quidax "usdtngn"),
          .cacheSet CACHE_KEY_NGN_RATE (.num 1650) 300]) := by
  refine ⟨(get_ngn_rate_contract envRateCached).1 1234 (by decide) (by decide), ?_, ?_⟩
  · exact ((get_ngn_rate_contract envDown).2 rfl).1 "connect timeout" rfl
  · exact ((get_ngn_rate_contract envQuidaxUp).2 rfl).2 ⟨1600, 1700, 1650⟩ rfl

/-- C10: zero balances cache asymmetrically.  With 0.0 stored under the
respective cache keys, `_get_evm_balance` and `_get_btc_balance` treat
the entry as a miss (`if cached:` is falsy at 0.0) and take the upstream
fetch path, issuing the network call; `_get_token_balance`
(`if cached is not None:`) serves the cached 0.0 with no call. -/
theorem zero_balance_cache_asymmetry (env : Env) (network token address url : String)
    (info : TokenInfo)
    (hurl : dictGet PUBLIC_RPC_URLS network = some url)
    (hconf : tokenInfoFor network (strLower token) = some info)
    (hevm : env.cache (s!"balance:{network}:{address}") = some 0)
    (hbtc : env.cache (s!"balance:bitcoin:{address}") = some 0)
    (htok : env.cache (s!"balance:{network}:{token}:{address}") = some 0) :
    (_get_evm_balance env address network
        = evmFetch env address network (s!"balance:{network}:{address}")
      ∧ Eff.netCall (.evmRpc network) ∈ (_get_evm_balance env address network).2)
    ∧ (_get_btc_balance env address
        = btcFetch env address (s!"balance:bitcoin:{address}")
      ∧ Eff.netCall (.btcExplorer address) ∈ (_get_btc_balance env address).2)
    ∧ _get_token_balance env address network token = (.ok 0, []) := by
  have hevmEq : _get_evm_balance env address network
      = evmFetch env address network (s!"balance:{network}:{address}") := by
    simp [_get_evm_balance, _get_rpc_url, hurl, hevm]
  have hbtcEq : _get_btc_balance env address
      = btcFetch env address (s!"balance:bitcoin:{address}") := by
    simp [_get_btc_balance, hbtc]
  refine ⟨⟨hevmEq, ?_⟩, ⟨hbtcEq, ?_⟩, ?_⟩
  · rw [hevmEq]; exact evmFetch_netCall env address network _
  · rw [hbtcEq]; exact btcFetch_netCall env address _
  · simp [_get_token_balance, hconf, _get_rpc_url, hurl, htok]

/-- C10 witness: the asymmetry at network `ethereum`, token `usdt`,
address `0xabc`, with 0.0 under every cache key and the upstream sources
down: both native readers issue their calls, the token reader returns the
cached zero silently. -/
theorem zero_balance_cache_asymmetry_witness :
    (Eff.netCall (.evmRpc "ethereum") ∈ (_get_evm_balance envZeroCache "0xabc" "ethereum").2)
    ∧ (Eff.netCall (.btcExplorer "0xabc") ∈ (_get_btc_balance envZeroCache "0xabc").2)
    ∧ _get_token_balance envZeroCache "0xabc" "ethereum" "usdt" = (.ok 0, []) := by
  have h := zero_balance_cache_asymmetry envZeroCache "ethereum" "usdt" "0xabc"
    "https://eth.llamarpc.com" ⟨"0xdAC17F958D2ee523a2206206994597C13D831ec7", 6⟩
    (by decide) (by decide) rfl rfl rfl
  exact ⟨h.1.2, h.2.1.2, h.2.2⟩

/-- C3 (counterexample): the claim says every input outside the six-asset
set returns 0.0 and never raises, but at input `"copy"` —
`"copy".lower()` names the `BaseModel.copy` method, so
`hasattr(prices, "copy")` holds — `getattr` yields a bound method and
`.price_usd` raises `AttributeError` instead of returning 0.0. -/
theorem get_price_for_symbol_copy_raises :
    (get_price_for_symbol envDown "copy").1 = .error (.attributeError "price_usd") := by
  decide

/-- C3 (amended): for a symbol whose lower-casing names one of the six
table fields, `get_price_for_symbol` returns that entry's stored usd
price; for any other input, the outcome follows `hasattr` on the pydantic
model object: when the lower-cased name exists as a (non-field) attribute
— a `BaseModel` method such as "copy" or "validate", a `model_*`
attribute, a dunder — the lookup raises `AttributeError` at `.price_usd`;
only a name with no attribute returns 0.0 without raising. -/
theorem get_price_for_symbol_amended (env : Env) (symbol : String) :
    (∀ fieldObj : AssetPriceResponse,
        priceTableField (get_all_prices env).1 (strLower symbol) = some fieldObj →
        (get_price_for_symbol env symbol).1 = .ok fieldObj.price_usd)
    ∧ (priceTableField (get_all_prices env).1 (strLower symbol) = none →
        env.pydanticAttr (strLower symbol) = true →
        (get_price_for_symbol env symbol).1 = .error (.attributeError "price_usd"))
    ∧ (priceTableField (get_all_prices env).1 (strLower symbol) = none →
        env.pydanticAttr (strLower symbol) = false →
        (get_price_for_symbol env symbol).1 = .ok 0) := by
  refine ⟨fun fieldObj h => ?_, fun h hattr => ?_, fun h hattr => ?_⟩
  · simp [get_price_for_symbol, h]
  · simp [get_price_for_symbol, h, hattr]
  · simp [get_price_for_symbol, h, hattr]

/-- C3 (amended) witness: with every source down, symbol "BTC" resolves
to the degraded table entry (price 0) through the field path; the
attribute names "validate" and "__init__" raise `AttributeError`; and
the unknown symbol "doge", an attribute of no pydantic release, returns
0.0 through the fallback path. -/
theorem get_price_for_symbol_amended_witness :
    (get_price_for_symbol envDown "BTC").1 = .ok 0
    ∧ (get_price_for_symbol envDown "validate").1 = .error (.attributeError "price_usd")
    ∧ (get_price_for_symbol envDown "__init__").1 = .error (.attributeError "price_usd")
    ∧ (get_price_for_symbol envDown "doge").1 = .ok 0 := by
  refine ⟨?_, ?_, ?_, ?_⟩
  · have h := (get_price_for_symbol_amended envDown "BTC").1
      ((get_all_prices envDown).1.btc) (by decide)
    exact h.trans (by decide)
  · exact (get_price_for_symbol_amended envDown "validate").2.1 (by decide) (by decide)
  · exact (get_price_for_symbol_amended envDown "__init__").2.1 (by decide) (by decide)
  · exact (get_price_for_symbol_amended envDown "doge").2.2 (by decide) (by decide)

/-- C2: on a cache miss with a well-formed RPC reply, the token reader
returns exactly the hex-parsed integer divided by 10^decimals (the
decimals taken from `TOKEN_CONFIG`), computed on exact decimal values —
binary floating point enters only the cached copy (`float(balance)`) —
and on a cache hit it returns the stored value with no call. -/
theorem token_balance_decode_exact (env : Env)
    (address network token hex url : String) (info : TokenInfo) (n : ℕ)
    (hconf : tokenInfoFor network (strLower token) = some info)
    (hurl : dictGet PUBLIC_RPC_URLS network = some url)
    (hmiss : env.cache (s!"balance:{network}:{token}:{address}") = none)
    (hrpc : env.token network token address = .ok ⟨none, some hex⟩)
    (hhex : hex ≠ "0x")
    (hn : pyIntHex hex = some n) :
    _get_token_balance env address network token
      = (.ok ((n : ℚ) / 10 ^ info.decimals),
         [.netCall (.tokenRpc network token),
          .cacheSet (s!"balance:{network}:{token}:{address}")
            (.num (pyFloat ((n : ℚ) / 10 ^ info.decimals))) 30])
    ∧ (∀ env2 : Env, ∀ v : ℚ,
        env2.cache (s!"balance:{network}:{token}:{address}") = some v →
        _get_token_balance env2 address network token = (.ok v, [])) := by
  have hq : qdiv (n : ℚ) (qpow 10 info.decimals) = (n : ℚ) / 10 ^ info.decimals := by
    rw [qdiv_eq, qpow_eq]
  constructor
  · simp [_get_token_balance, hconf, _get_rpc_url, hurl, hmiss, tokenFetch, hrpc, hhex,
      hn, hq]
  · intro env2 v hv
    simp [_get_token_balance, hconf, _get_rpc_url, hurl, hv]

/-- C2 witness: network ethereum, asset usdt (decimals = 6), contract
call returning the hex integer 0x3B9ACA00 = 1,000,000,000.  The fresh
fetch returns exactly 1000 and stores `float(1000) = 1000.0`; reading the
stored value back on the cache-hit path returns exactly 1000 again — no
rounding drift at any point. -/
theorem token_balance_decode_exact_witness :
    _get_token_balance envTokenHex "0xabc" "ethereum" "usdt"
      = (.ok 1000,
         [.netCall (.tokenRpc "ethereum" "usdt"),
          .cacheSet "balance:ethereum:usdt:0xabc" (.num 1000) 30])
    ∧ pyFloat ((1000000000 : ℚ) / 10 ^ 6) = 1000
    ∧ _get_token_balance envTokenCached "0xabc" "ethereum" "usdt" = (.ok 1000, []) := by
  have h := token_balance_decode_exact envTokenHex "0xabc" "ethereum" "usdt" "0x3B9ACA00"
    "https://eth.llamarpc.com" ⟨"0xdAC17F958D2ee523a2206206994597C13D831ec7", 6⟩ 1000000000
    (by decide) (by decide) rfl rfl (by decide) (by decide)
  have hval : ((1000000000 : ℚ) / 10 ^ (6 : ℕ)) = 1000 := by norm_num
  refine ⟨by decide, ?_, h.2 envTokenCached 1000 rfl⟩
  rw [hval]
  decide

/-- C9 (counterexample): the claim says that with an unreachable backing
store `Cache.get` returns absent and `set`/`delete` are no-ops, never an
error.  But `cache.py` guards only the not-connected case
(`if not self.client`): with a connected client whose store is
unreachable, the client's `ConnectionError` propagates out of `get`,
`set` and `delete` unhandled. -/
theorem cache_unreachable_store_raises :
    cache_get (some (downRedis "Connection refused")) "crypto:prices"
        = .error (.redisError "Connection refused")
    ∧ cache_set (some (downRedis "Connection refused")) "crypto:prices" (1 : ℚ) (some 30)
        = .error (.redisError "Connection refused")
    ∧ cache_delete (some (downRedis "Connection refused")) "crypto:prices"
        = .error (.redisError "Connection refused") :=
  ⟨rfl, rfl, rfl⟩

/-- C9 (amended): when no client is connected (`self.client` unset),
`Cache.get` returns absent and `Cache.set`/`Cache.delete` are no-ops,
for every key, value and TTL; but when a connected client's backing
store fails, the command's error propagates to the caller. -/
theorem cache_noclient_noop (key : String) (v : ℚ) (ttl : Option Nat) (d : String) :
    cache_get (none : Option (RedisClient ℚ)) key = .ok none
    ∧ cache_set (none : Option (RedisClient ℚ)) key v ttl = .ok ()
    ∧ cache_delete (none : Option (RedisClient ℚ)) key = .ok ()
    ∧ cache_get (some (downRedis d)) key = .error (.redisError d) :=
  ⟨rfl, rfl, rfl, rfl⟩

/-- C7: requesting an asset that is the native asset of a network
different from the wallet's own fails with a `BlockAiException` of
status 400, and the effect list is empty — no chain, explorer or market
request is issued. -/
theorem cross_network_native_asset_validation (env : Env) (w : WalletModel)
    (asset expected : String)
    (hne : asset.isEmpty = false)
    (hnative : _is_native_asset (strUpper asset) = true)
    (hexp : _get_native_asset_network (strUpper asset) = some expected)
    (hmismatch : expected ≠ _get_network_str w.network) :
    get_wallet_balance env w (some asset)
      = (.error (.blockAi
          (s!"Asset {strUpper asset} is the native currency of {expected}, not {_get_network_str w.network}")
          400), []) := by
  simp [get_wallet_balance, hne, hnative, hexp, hmismatch]

/-- C7 witness: asset "BTC" on an ethereum wallet is rejected with a 400
validation error and zero network calls. -/
theorem cross_network_native_asset_validation_witness :
    get_wallet_balance envDown wEth (some "BTC")
      = (.error (.blockAi
          "Asset BTC is the native currency of bitcoin, not ethereum" 400), []) := by
  have h := cross_network_native_asset_validation envDown wEth "BTC" "bitcoin"
    (by decide) (by decide) (by decide) (by decide)
  exact h.trans (by decide)

/-- C4: `get_all_prices` always returns a complete six-entry table — the
embedding is total, a Binance `ExternalAPIError` being absorbed into an
empty row set rather than propagated — whose entries carry their fixed
symbols.  Under the invariant that a cached table was built by a
previous snapshot (`buildTable` is the only writer under
`crypto:prices`), the USDT entry always has usd price exactly 1.0 and
24h change 0; and on the fetch path every asset whose ticker row is
missing (including the total-failure case, where every row is missing)
appears with usd price 0 and 24h change 0. -/
theorem get_all_prices_complete_degraded (env : Env)
    (hgood : env.pricesCache = none
      ∨ ∃ tks r, env.pricesCache = some (buildTable tks r)) :
    ((get_all_prices env).1.btc.symbol = "BTC"
      ∧ (get_all_prices env).1.eth.symbol = "ETH"
      ∧ (get_all_prices env).1.bnb.symbol = "BNB"
      ∧ (get_all_prices env).1.matic.symbol = "MATIC"
      ∧ (get_all_prices env).1.usdt.symbol = "USDT"
      ∧ (get_all_prices env).1.usdc.symbol = "USDC")
    ∧ ((get_all_prices env).1.usdt.price_usd = 1
      ∧ (get_all_prices env).1.usdt.change_24h = 0)
    ∧ (env.pricesCache = none →
        (tickerFor (snapshotTickers env) "BTCUSDT" = none →
          (get_all_prices env).1.btc.price_usd = 0 ∧ (get_all_prices env).1.btc.change_24h = 0)
        ∧ (tickerFor (snapshotTickers env) "ETHUSDT" = none →
          (get_all_prices env).1.eth.price_usd = 0 ∧ (get_all_prices env).1.eth.change_24h = 0)
        ∧ (tickerFor (snapshotTickers env) "BNBUSDT" = none →
          (get_all_prices env).1.bnb.price_usd = 0 ∧ (get_all_prices env).1.bnb.change_24h = 0)
        ∧ (tickerFor (snapshotTickers env) "MATICUSDT" = none →
          (get_all_prices env).1.matic.price_usd = 0 ∧ (get_all_prices env).1.matic.change_24h = 0)
        ∧ (tickerFor (snapshotTickers env) "USDCUSDT" = none →
          (get_all_prices env).1.usdc.price_usd = 0 ∧ (get_all_prices env).1.usdc.change_24h = 0)) := by
  rcases hgood with hnone | ⟨tks, r, hsome⟩
  · refine ⟨?_, ?_, ?_⟩
    · simp [get_all_prices, hnone, buildTable, make_response]
    · simp [get_all_prices, hnone, buildTable, make_response]
    · intro _
      refine ⟨fun hrow => ?_, fun hrow => ?_, fun hrow => ?_, fun hrow => ?_, fun hrow => ?_⟩
        <;> simp [get_all_prices, hnone, buildTable, make_response, priceRow, hrow]
  · refine ⟨?_, ?_, fun hnone => ?_⟩
    · simp [get_all_prices, hsome, buildTable, make_response]
    · simp [get_all_prices, hsome, buildTable, make_response]
    · rw [hsome] at hnone
      cases hnone

/-- C4 witness: with the price cache cold and the Binance fetch failing
outright, the table is still complete: USDT is pinned at 1.0 and the
assets with missing rows (all five) report 0/0. -/
theorem get_all_prices_complete_degraded_witness :
    (get_all_prices envDown).1.usdt.symbol = "USDT"
    ∧ (get_all_prices envDown).1.usdt.price_usd = 1
    ∧ (get_all_prices envDown).1.btc.price_usd = 0
    ∧ (get_all_prices envDown).1.btc.change_24h = 0 := by
  have h := get_all_prices_complete_degraded envDown (Or.inl rfl)
  exact ⟨h.1.2.2.2.2.1, h.2.1.1, (h.2.2 rfl).1 (by decide)⟩

/-- The post-filter predicate unfolded to its proposition. -/
theorem keepQuote_iff (r : WalletBalanceResponse) :
    keepQuote r = true ↔
      (0 < r.balance ∨ r.asset ∈ (["ETH", "BTC", "BNB", "MATIC"] : List String)) := by
  simp [keepQuote]

/-- C5: a response is in the per-wallet post-filtered quote list iff some
task of that wallet succeeded with it and its balance is strictly
positive or its asset is a native asset (ETH, BTC, BNB, MATIC).  In
particular a token quote with balance 0 is excluded and a native-asset
quote with balance 0 is retained. -/
theorem portfolio_post_filter_iff (env : Env) (w : WalletModel)
    (r : WalletBalanceResponse) :
    r ∈ fetch_wallet_balances env w ↔
      ((∃ a ∈ walletTasks w, (get_wallet_balance env w a).1 = .ok r)
        ∧ (0 < r.balance ∨ r.asset ∈ (["ETH", "BTC", "BNB", "MATIC"] : List String))) := by
  simp only [fetch_wallet_balances, List.mem_filterMap, List.mem_map]
  constructor
  · rintro ⟨x, ⟨a, ha, rfl⟩, hf⟩
    rcases hg : (get_wallet_balance env w a).1 with e | q
    · rw [hg] at hf
      exact absurd hf (by simp)
    · rw [hg] at hf
      have hf2 : (if keepQuote q = true then some q else none) = some r := hf
      by_cases hk : keepQuote q = true
      · rw [if_pos hk] at hf2
        injection hf2 with h2
        subst h2
        exact ⟨⟨a, ha, hg⟩, (keepQuote_iff q).1 hk⟩
      · rw [if_neg hk] at hf2
        cases hf2
  · rintro ⟨⟨a, ha, hok⟩, hkeep⟩
    refine ⟨(get_wallet_balance env w a).1, ⟨a, ha, rfl⟩, ?_⟩
    rw [hok]
    show (if keepQuote r = true then some r else none) = some r
    rw [if_pos ((keepQuote_iff r).2 hkeep)]

/-- Every successful valuation carries the fiat invariant: the stored usd
field is the 2-dp rounding of the raw usd value, and the stored ngn field
is the 2-dp rounding of that same raw value times the snapshot's NGN
rate. -/
theorem quoteValuation_ok (env : Env) (w : WalletModel) (symbol : String)
    (balance : ℚ) (r : WalletBalanceResponse)
    (h : (quoteValuation env w symbol balance).1 = .ok r) :
    ∃ u : ℚ, r.balance_usd = round2 u
      ∧ r.balance_ngn = round2 (u * (get_ngn_rate env).1) := by
  unfold quoteValuation at h
  rcases hp : (get_price_for_symbol env symbol).1 with e | price
  · rw [hp] at h
    cases h
  · rw [hp] at h
    simp only [] at h
    injection h with h2
    subst h2
    refine ⟨pyFloat balance * price, by simp [qmul_eq], by simp [qmul_eq]⟩

/-- Every success of the native dispatch is produced by the valuation
tail. -/
theorem nativeBalanceQuote_ok (env : Env) (w : WalletModel)
    (r : WalletBalanceResponse)
    (hq : (nativeBalanceQuote env w).1 = .ok r) :
    ∃ symbol balance, (quoteValuation env w symbol balance).1 = .ok r := by
  unfold nativeBalanceQuote at hq
  rcases hn : w.network
  · simp only [hn] at hq
    rcases hb : (_get_evm_balance env w.address "ethereum").1 with e | bal
    · simp [hb] at hq
    · simp only [hb] at hq
      exact ⟨_, _, hq⟩
  · simp only [hn] at hq
    rcases hb : (_get_btc_balance env w.address).1 with e | bal
    · simp [hb] at hq
    · simp only [hb] at hq
      exact ⟨_, _, hq⟩
  · simp only [hn] at hq
    rcases hb : (_get_evm_balance env w.address "bsc").1 with e | bal
    · simp [hb] at hq
    · simp only [hb] at hq
      exact ⟨_, _, hq⟩
  · simp only [hn] at hq
    rcases hb : (_get_evm_balance env w.address "polygon").1 with e | bal
    · simp [hb] at hq
    · simp only [hb] at hq
      exact ⟨_, _, hq⟩

/-- Every success of the token dispatch is produced by the valuation
tail. -/
theorem tokenBalanceQuote_ok (env : Env) (w : WalletModel)
    (network_str target_asset : String) (r : WalletBalanceResponse)
    (hq : (tokenBalanceQuote env w network_str target_asset).1 = .ok r) :
    ∃ symbol balance, (quoteValuation env w symbol balance).1 = .ok r := by
  unfold tokenBalanceQuote at hq
  rcases ht : (_get_token_balance env w.address network_str target_asset).1 with e | bal
  · simp [ht] at hq
  · simp only [ht] at hq
    exact ⟨_, _, hq⟩

/-- Every success of `get_wallet_balance` is produced by the valuation
tail. -/
theorem get_wallet_balance_ok_via_valuation (env : Env) (w : WalletModel)
    (a : Option String) (r : WalletBalanceResponse)
    (h : (get_wallet_balance env w a).1 = .ok r) :
    ∃ symbol balance, (quoteValuation env w symbol balance).1 = .ok r := by
  simp only [get_wallet_balance] at h
  repeat' split at h
  all_goals
    first
      | exact nativeBalanceQuote_ok env w r h
      | exact tokenBalanceQuote_ok env w _ _ r h
      | simp at h

/-- C6: for every quote a snapshot produces, the fiat (NGN) value is the
usd value times the snapshot's current fiat rate, with both money fields
rounded to two decimals only when the response is built; and every
`AssetPrice` built by the same snapshot (fetch path) satisfies
`price_ngn = price_usd × rate` exactly (prices are not rounded at
all). -/
theorem fiat_equals_usd_times_rate (env : Env) (w : WalletModel)
    (a : Option String) (r : WalletBalanceResponse)
    (h : (get_wallet_balance env w a).1 = .ok r) :
    (∃ u : ℚ, r.balance_usd = round2 u
      ∧ r.balance_ngn = round2 (u * (get_ngn_rate env).1))
    ∧ (env.pricesCache = none →
        ∀ e ∈ [(get_all_prices env).1.btc, (get_all_prices env).1.eth,
               (get_all_prices env).1.bnb, (get_all_prices env).1.matic,
               (get_all_prices env).1.usdt, (get_all_prices env).1.usdc],
          e.price_ngn = e.price_usd * (get_ngn_rate env).1) := by
  constructor
  · obtain ⟨sym, bal, hq⟩ := get_wallet_balance_ok_via_valuation env w a r h
    exact quoteValuation_ok env w sym bal r hq
  · intro hnone e he
    simp only [get_all_prices, hnone, buildTable, List.mem_cons, List.not_mem_nil,
      or_false] at he
    rcases he with rfl | rfl | rfl | rfl | rfl | rfl <;> simp [make_response, qmul_eq]

/-- A zero-balance bitcoin native quote, as the snapshot of
`fiat_equals_usd_times_rate_witness` produces it. -/
def rBtcZero : WalletBalanceResponse :=
  { id := "w1", network := .bitcoin, address := "bc1qtest", asset := "BTC",
    balance := 0, balance_usd := 0, balance_ngn := 0 }

/-- C6 witness: a concrete successful snapshot (bitcoin wallet, explorer
answering zero, prices degraded, NGN rate at the 1500 fallback)
instantiates the invariant. -/
theorem fiat_equals_usd_times_rate_witness :
    (∃ u : ℚ, rBtcZero.balance_usd = round2 u
      ∧ rBtcZero.balance_ngn = round2 (u * (get_ngn_rate envBtcUp).1))
    ∧ (envBtcUp.pricesCache = none →
        ∀ e ∈ [(get_all_prices envBtcUp).1.btc, (get_all_prices envBtcUp).1.eth,
               (get_all_prices envBtcUp).1.bnb, (get_all_prices envBtcUp).1.matic,
               (get_all_prices envBtcUp).1.usdt, (get_all_prices envBtcUp).1.usdc],
          e.price_ngn = e.price_usd * (get_ngn_rate envBtcUp).1) :=
  fiat_equals_usd_times_rate envBtcUp wBtc none rBtcZero (by decide)

/-- C1: for every environment — any pattern of per-task and per-wallet
failures — and every wallet list, `get_portfolio_value` returns a
portfolio (the embedding is total: each task's exception is collected by
the `return_exceptions=True` joins, dropped, and cancels nothing, so
every other task's success is still consulted); its quote list is exactly
the successful task results that pass the post-filter, wallet by wallet
in task order; and the totals are the rounded sums of exactly the kept
quotes' usd and ngn values. -/
theorem get_portfolio_value_collects_successes (env : Env)
    (wallets : List WalletModel) :
    (get_portfolio_value env wallets).wallets
      = (wallets.map (fun w => (walletTasks w).filterMap (fun a =>
          match (get_wallet_balance env w a).1 with
          | .error _ => none
          | .ok r => if keepQuote r then some r else none))).flatten
    ∧ (get_portfolio_value env wallets).total_value_usd
      = round2 (((get_portfolio_value env wallets).wallets.map
          (fun r => r.balance_usd)).sum)
    ∧ (get_portfolio_value env wallets).total_value_ngn
      = round2 (((get_portfolio_value env wallets).wallets.map
          (fun r => r.balance_ngn)).sum) := by
  have hfw : ∀ w : WalletModel,
      fetch_wallet_balances env w
        = (walletTasks w).filterMap (fun a =>
            match (get_wallet_balance env w a).1 with
            | .error _ => none
            | .ok r => if keepQuote r then some r else none) := by
    intro w
    simp [fetch_wallet_balances, List.filterMap_map, Function.comp_def]
  refine ⟨?_, ?_, ?_⟩
  · simp only [get_portfolio_value]
    rw [funext hfw]
  · simp [get_portfolio_value, qsum_eq]
  · simp [get_portfolio_value, qsum_eq]

end PortfolioTracker
